import Mathlib

/-!
Shallow embedding of the interactive transform and compositing engine of
`src/App.tsx` (aztec-goldchain-overlay).  The source file contains two
variants of the component; definitions coming from the second variant carry
the suffix `2`.  Real numbers stand for JavaScript numbers; where the
IEEE special values NaN and the infinities matter (the `clamp` helper fed
by degenerate pointer arithmetic) a dedicated `JSNum` type models them
explicitly.  Lean's convention `x / 0 = 0` is noted at each place where a
statement touches a division whose JavaScript counterpart would yield an
infinity or NaN.
-/

namespace AztecOverlay

/-- The `OverlayState` record of `src/App.tsx` (both variants):
`x`/`y` are the overlay center as percentages of the display surface,
`scale` a multiplier, `rotation` in degrees, `opacity` in `[0,1]`. -/
structure OverlayState where
  x : ℝ
  y : ℝ
  scale : ℝ
  rotation : ℝ
  opacity : ℝ

/-- The bounding rectangle returned by `getBoundingClientRect()` for the
image container (the display surface). -/
structure Rect where
  left : ℝ
  top : ℝ
  width : ℝ
  height : ℝ

/-- Line 50: `const clamp = (v, a, b) => Math.max(a, Math.min(b, v));`
over ordinary reals (no IEEE special values). -/
noncomputable def clamp (v a b : ℝ) : ℝ := max a (min b v)

/-- `Math.atan2(y, x)`: the argument of the complex number `x + y*i`.
On real (non-NaN, non-signed-zero) inputs JavaScript's `Math.atan2`
agrees with the complex argument, including `atan2 0 0 = 0`. -/
noncomputable def atan2 (y x : ℝ) : ℝ := Complex.arg ⟨x, y⟩

/-- The three interaction flags of variant 1 (lines 39-41) / variant 2
(lines 506-508): `isDragging`, `isResizing`, `isRotating`. -/
structure GestureFlags where
  isDragging : Bool
  isResizing : Bool
  isRotating : Bool
deriving DecidableEq

/-- Variant 1, lines 104-133: the shared mouse/touch move handler.
`container` is `imageContainerRef.current` (`none` when the ref is null);
when present, `rect` is its bounding rectangle and the branch taken is the
first of dragging / resizing / rotating whose flag is set.  The state `s`
plays the role both of the functional-update argument `p` and of
`overlayRef.current` (they hold the same latest overlay value). -/
noncomputable def handleMove (container : Option Rect) (flags : GestureFlags)
    (clientX clientY : ℝ) (s : OverlayState) : OverlayState :=
  match container with
  | none => s
  | some rect =>
    let localX := clientX - rect.left
    let localY := clientY - rect.top
    if flags.isDragging then
      { s with x := clamp (localX / rect.width * 100) 0 100,
               y := clamp (localY / rect.height * 100) 0 100 }
    else if flags.isResizing then
      let centerX := s.x / 100 * rect.width
      let centerY := s.y / 100 * rect.height
      let dx := localX - centerX
      let dy := localY - centerY
      let distance := Real.sqrt (dx * dx + dy * dy)
      let baseDistance := min rect.width rect.height * 0.2
      { s with scale := clamp (distance / baseDistance) 0.25 4 }
    else if flags.isRotating then
      let centerX := s.x / 100 * rect.width
      let centerY := s.y / 100 * rect.height
      { s with rotation := atan2 (localY - centerY) (localX - centerX) * 180 / Real.pi }
    else s

/-- Variant 2, lines 569-597: same handler shape, with the cached
`imageRect` state instead of a live ref, an additional
`dragStartRef.current != null` guard on every branch, resize bounds
`[0.2, 4]` written as `Math.max(0.2, Math.min(4, ...))`, and the rotation
written as `atan2(...) * (180 / Math.PI)`. -/
noncomputable def handleMove2 (imageRect : Option Rect) (flags : GestureFlags)
    (dragStartPresent : Bool) (clientX clientY : ℝ) (s : OverlayState) : OverlayState :=
  match imageRect with
  | none => s
  | some rect =>
    let localX := clientX - rect.left
    let localY := clientY - rect.top
    if flags.isDragging && dragStartPresent then
      { s with x := max 0 (min 100 (localX / rect.width * 100)),
               y := max 0 (min 100 (localY / rect.height * 100)) }
    else if flags.isResizing && dragStartPresent then
      let centerX := s.x / 100 * rect.width
      let centerY := s.y / 100 * rect.height
      let dx := localX - centerX
      let dy := localY - centerY
      let distance := Real.sqrt (dx * dx + dy * dy)
      let baseDistance := min rect.width rect.height * 0.2
      { s with scale := max 0.2 (min 4 (distance / baseDistance)) }
    else if flags.isRotating && dragStartPresent then
      let centerX := s.x / 100 * rect.width
      let centerY := s.y / 100 * rect.height
      { s with rotation := atan2 (localY - centerY) (localX - centerX) * (180 / Real.pi) }
    else s

/-- Variant 1, lines 30-36: the initial `useState` overlay value. -/
noncomputable def initialOverlay : OverlayState :=
  { x := 50, y := 60, scale := 1, rotation := 0, opacity := 0.95 }

/-- Variant 1, line 60: the overlay value stored when a new image finishes
loading in `handleFileUpload`. -/
noncomputable def uploadReset : OverlayState :=
  { x := 50, y := 60, scale := 1, rotation := 0, opacity := 0.95 }

/-- Variant 1, line 165: the overlay value stored by `resetOverlay`. -/
noncomputable def resetOverlay : OverlayState :=
  { x := 50, y := 60, scale := 1, rotation := 0, opacity := 0.95 }

/-- Variant 2, line 535: the overlay value stored on new-image load in
`handleImageUpload`. -/
noncomputable def uploadReset2 : OverlayState :=
  { x := 50, y := 50, scale := 1, rotation := 0, opacity := 0.95 }

/-- Variant 2, line 707: the overlay value stored by `resetOverlay`. -/
noncomputable def resetOverlay2 : OverlayState :=
  { x := 50, y := 50, scale := 1, rotation := 0, opacity := 0.95 }

/-- Variant 1, line 238: `bumpScale`. -/
noncomputable def bumpScale (delta : ℝ) (s : OverlayState) : OverlayState :=
  { s with scale := clamp (s.scale + delta) 0.2 4 }

/-- JavaScript `a % b`: remainder truncated toward zero. -/
noncomputable def jsRem (a b : ℝ) : ℝ :=
  a - b * (if 0 ≤ a / b then ((⌊a / b⌋ : ℤ) : ℝ) else ((⌈a / b⌉ : ℤ) : ℝ))

/-- JavaScript `Math.round`: half-up rounding (ties toward positive
infinity). -/
noncomputable def jsRound (x : ℝ) : ℝ := ((⌊x + 1 / 2⌋ : ℤ) : ℝ)

/-- Variant 1, lines 239-240: `bumpRotation`. -/
noncomputable def bumpRotation (delta : ℝ) (s : OverlayState) : OverlayState :=
  { s with rotation := jsRound (jsRem (s.rotation + delta) 360) }

/-- Variant 1, line 394 / variant 2, line 869: the opacity slider stores
`parseFloat(e.target.value)` directly.  The DOM input element declares
`min="0.1" max="1"`. -/
def setOpacity (o : ℝ) (s : OverlayState) : OverlayState :=
  { s with opacity := o }

/-- The transform-mutating operations of variant 1, with their inputs. -/
inductive UserAction where
  | dragMove (rect : Rect) (clientX clientY : ℝ)
  | resizeMove (rect : Rect) (clientX clientY : ℝ)
  | rotateMove (rect : Rect) (clientX clientY : ℝ)
  | opacityInput (o : ℝ)
  | resetClick
  | newImageLoad
  | scaleNudge (delta : ℝ)
  | rotationNudge (delta : ℝ)

/-- Dispatch of a `UserAction` to the corresponding source handler of
variant 1. -/
noncomputable def applyAction : UserAction → OverlayState → OverlayState
  | .dragMove rect cx cy, s => handleMove (some rect) ⟨true, false, false⟩ cx cy s
  | .resizeMove rect cx cy, s => handleMove (some rect) ⟨false, true, false⟩ cx cy s
  | .rotateMove rect cx cy, s => handleMove (some rect) ⟨false, false, true⟩ cx cy s
  | .opacityInput o, s => setOpacity o s
  | .resetClick, _ => resetOverlay
  | .newImageLoad, _ => uploadReset
  | .scaleNudge d, s => bumpScale d s
  | .rotationNudge d, s => bumpRotation d s

/-- Input-domain facts supplied by the environment: the gesture moves read
a laid-out surface of positive size, and the opacity slider's value obeys
its DOM-declared `min`/`max` attributes. -/
def ValidAction : UserAction → Prop
  | .dragMove rect _ _ => 0 < rect.width ∧ 0 < rect.height
  | .resizeMove rect _ _ => 0 < rect.width ∧ 0 < rect.height
  | .rotateMove rect _ _ => 0 < rect.width ∧ 0 < rect.height
  | .opacityInput o => 0.1 ≤ o ∧ o ≤ 1
  | _ => True

/-- The spec's range invariant on the transform model: `x, y ∈ [0,100]`,
`scale ∈ [0.2, 4]`, `opacity ∈ [0.1, 1]`; rotation is unconstrained. -/
def Invariant (s : OverlayState) : Prop :=
  0 ≤ s.x ∧ s.x ≤ 100 ∧ 0 ≤ s.y ∧ s.y ≤ 100 ∧
    0.2 ≤ s.scale ∧ s.scale ≤ 4 ∧ 0.1 ≤ s.opacity ∧ s.opacity ≤ 1

/-- Which image a canvas `drawImage` call paints. -/
inductive ImgId where
  | base
  | overlay
deriving DecidableEq

/-- A decoded image: its natural width and height. -/
structure Img where
  width : ℝ
  height : ℝ

/-- The 2D-context operations issued by `downloadImage`, in order. -/
inductive PaintOp where
  | clearRect (x y w h : ℝ)
  | drawImage (img : ImgId) (x y w h : ℝ)
  | save
  | setAlpha (a : ℝ)
  | translate (x y : ℝ)
  | rotate (rad : ℝ)
  | restore

/-- Variant 1, lines 191-218: the canvas operations of `downloadImage`
once both images decoded, given the base image's natural size `(W, H)`,
the overlay image's natural size `(w, h)` and the transform `t`.  The
preview surface size does not occur: export geometry depends only on the
decoded base image. -/
noncomputable def exportOps (W H w h : ℝ) (t : OverlayState) : List PaintOp :=
  let baseSize := min W H * 0.32
  let drawW := baseSize * t.scale
  let aspect := w / h
  let drawH := drawW / aspect
  let centerX := t.x / 100 * W
  let centerY := t.y / 100 * H
  [ .clearRect 0 0 W H,
    .drawImage .base 0 0 W H,
    .save,
    .setAlpha t.opacity,
    .translate centerX centerY,
    .rotate (t.rotation * Real.pi / 180),
    .drawImage .overlay (-drawW / 2) (-drawH / 2) drawW drawH,
    .restore ]

/-- Observable outcome of one `downloadImage` call. -/
inductive ExportOutcome where
  | noImageAlert
  | ctxUnavailable
  | downloaded (canvasW canvasH : ℝ) (ops : List PaintOp)
  | exportFailedAlert

/-- Variant 1, lines 169-235: `downloadImage`.  `uploadedImage` is `none`
when no image was uploaded; otherwise its decode outcome is an `Except`
(a rejected image-load promise is the `error` case, caught by the
`try`/`catch`, which alerts).  `ctxOk` is whether `getContext` returned a
context.  The `downloaded` outcome carries the canvas dimensions
(`canvas.width = baseImg.width`, `canvas.height = baseImg.height`) and the
issued paint operations; only this outcome triggers `toDataURL` and the
anchor-click download. -/
noncomputable def downloadImage (uploadedImage : Option (Except Unit Img))
    (ctxOk : Bool) (overlayLoad : Except Unit Img) (t : OverlayState) : ExportOutcome :=
  match uploadedImage with
  | none => .noImageAlert
  | some baseLoad =>
    if ctxOk then
      match baseLoad with
      | .error _ => .exportFailedAlert
      | .ok baseImg =>
        match overlayLoad with
        | .error _ => .exportFailedAlert
        | .ok overlayImg =>
          .downloaded baseImg.width baseImg.height
            (exportOps baseImg.width baseImg.height overlayImg.width overlayImg.height t)
    else .ctxUnavailable

/-- Variant 1, line 174: `const canvas = canvasRef.current ??
document.createElement("canvas")`.  Canvases are identified by a token;
`ref` is the hidden mounted canvas (non-null once the app rendered) and
`fresh` the canvas a `createElement` call would produce for this export. -/
def exportCanvas (ref : Option Nat) (fresh : Nat) : Nat :=
  ref.getD fresh

/-- The actions a pointer-down can start (line 73). -/
inductive HandleAction where
  | drag
  | resize
  | rotate
deriving DecidableEq

/-- Variant 1, lines 70-80: `startAction` bails when the container ref is
null and otherwise sets the flag of the requested action, leaving the
other two flags untouched. -/
def startAction (containerPresent : Bool) (a : HandleAction)
    (f : GestureFlags) : GestureFlags :=
  if containerPresent then
    let f1 := if a = .drag then { f with isDragging := true } else f
    let f2 := if a = .resize then { f1 with isResizing := true } else f1
    if a = .rotate then { f2 with isRotating := true } else f2
  else f

/-- All flags false: the controller's Idle configuration and the initial
`useState(false)` values. -/
def initFlags : GestureFlags := ⟨false, false, false⟩

/-- The pointer/touch events reaching the gesture controller. -/
inductive GEvent where
  | pointerDown (a : HandleAction) (containerPresent : Bool)
  | pointerMove
  | endSignal

/-- One controller step: pointer-down runs `startAction`, a move leaves
the flags unchanged (`handleMove` only writes the overlay), and the end
signal (`mouseup`/`touchend`, lines 142-146) runs `onEnd`, clearing all
three flags. -/
def gestureStep : GEvent → GestureFlags → GestureFlags
  | .pointerDown a p, f => startAction p a f
  | .pointerMove, f => f
  | .endSignal, _ => ⟨false, false, false⟩

/-- At most one of the three mode flags is set (Idle counts). -/
def AtMostOneMode (f : GestureFlags) : Prop :=
  f.isDragging.toNat + f.isResizing.toNat + f.isRotating.toNat ≤ 1

/-- A JavaScript number as seen by `clamp`: NaN, the two infinities, or a
finite value (represented by a rational). -/
inductive JSNum where
  | nan
  | posInf
  | negInf
  | num (q : ℚ)
deriving DecidableEq

/-- `Math.min`: NaN-propagating minimum. -/
def jsMin : JSNum → JSNum → JSNum
  | .nan, _ => .nan
  | _, .nan => .nan
  | .negInf, _ => .negInf
  | _, .negInf => .negInf
  | .posInf, b => b
  | a, .posInf => a
  | .num a, .num b => .num (min a b)

/-- `Math.max`: NaN-propagating maximum. -/
def jsMax : JSNum → JSNum → JSNum
  | .nan, _ => .nan
  | _, .nan => .nan
  | .posInf, _ => .posInf
  | _, .posInf => .posInf
  | .negInf, b => b
  | a, .negInf => a
  | .num a, .num b => .num (max a b)

/-- Line 50 under IEEE special values: `clamp(v, a, b) = Math.max(a,
Math.min(b, v))` with finite bounds. -/
def clampJS (v : JSNum) (a b : ℚ) : JSNum := jsMax (.num a) (jsMin (.num b) v)

/-- Line 113 data flow: the value stored into `x` by a drag move is the
clamp of the computed coordinate — the prior field value is not consulted,
so nothing rejects a degenerate input. -/
def dragStoreX (v : JSNum) : JSNum := clampJS v 0 100

/-- JavaScript subtraction on IEEE values (signed zeros ignored: the only
zero is `num 0`, which behaves as `+0`). -/
def jsSub : JSNum → JSNum → JSNum
  | .nan, _ => .nan
  | _, .nan => .nan
  | .posInf, .posInf => .nan
  | .posInf, _ => .posInf
  | .negInf, .negInf => .nan
  | .negInf, _ => .negInf
  | .num _, .posInf => .negInf
  | .num _, .negInf => .posInf
  | .num a, .num b => .num (a - b)

/-- JavaScript division on IEEE values: a nonzero finite value divided by
`+0` gives the signed infinity, and `0 / 0` gives NaN. -/
def jsDiv : JSNum → JSNum → JSNum
  | .nan, _ => .nan
  | _, .nan => .nan
  | .posInf, .posInf => .nan
  | .posInf, .negInf => .nan
  | .negInf, .posInf => .nan
  | .negInf, .negInf => .nan
  | .posInf, .num b => if 0 ≤ b then .posInf else .negInf
  | .negInf, .num b => if 0 ≤ b then .negInf else .posInf
  | .num _, .posInf => .num 0
  | .num _, .negInf => .num 0
  | .num a, .num b =>
    if b = 0 then (if a = 0 then .nan else if 0 < a then .posInf else .negInf)
    else .num (a / b)

/-- JavaScript multiplication on IEEE values: an infinity times zero is
NaN. -/
def jsMul : JSNum → JSNum → JSNum
  | .nan, _ => .nan
  | _, .nan => .nan
  | .posInf, .posInf => .posInf
  | .posInf, .negInf => .negInf
  | .negInf, .posInf => .negInf
  | .negInf, .negInf => .posInf
  | .posInf, .num b => if b = 0 then .nan else if 0 < b then .posInf else .negInf
  | .negInf, .num b => if b = 0 then .nan else if 0 < b then .negInf else .posInf
  | .num a, .posInf => if a = 0 then .nan else if 0 < a then .posInf else .negInf
  | .num a, .negInf => if a = 0 then .nan else if 0 < a then .negInf else .posInf
  | .num a, .num b => .num (a * b)

/-- Variant 1, lines 109-115, under IEEE semantics: the value a drag move
stores into `x` is `clamp((localX / rect.width) * 100, 0, 100)` with
`localX = clientX - rect.left`. -/
def dragNewX (rectLeft rectWidth clientX : JSNum) : JSNum :=
  clampJS (jsMul (jsDiv (jsSub clientX rectLeft) rectWidth) (.num 100)) 0 100

/-- A JavaScript number lies in the closed range `[a, b]`: it is finite
with its value between the bounds. -/
def InRangeJS (v : JSNum) (a b : ℚ) : Prop :=
  ∃ q : ℚ, v = .num q ∧ a ≤ q ∧ q ≤ b

/-- The source `clamp` lands in `[a, b]` whenever `a ≤ b`. -/
theorem clamp_mem (v a b : ℝ) (hab : a ≤ b) : a ≤ clamp v a b ∧ clamp v a b ≤ b :=
  ⟨le_max_left _ _, max_le hab (min_le_left _ _)⟩

/-- `atan2` converted to degrees stays within `[-180, 180]`, since the
complex argument lies in `(-π, π]`. -/
theorem atan2_deg_mem (y x : ℝ) :
    -180 ≤ atan2 y x * 180 / Real.pi ∧ atan2 y x * 180 / Real.pi ≤ 180 := by
  have hpi : (0 : ℝ) < Real.pi := Real.pi_pos
  have hub : atan2 y x ≤ Real.pi := Complex.arg_le_pi _
  have hlb : -Real.pi < atan2 y x := Complex.neg_pi_lt_arg _
  constructor
  · rw [le_div_iff₀ hpi]
    nlinarith
  · rw [div_le_iff₀ hpi]
    nlinarith

/-- `atan2 0 0 = 0`, matching `Math.atan2(0, 0)`. -/
theorem atan2_zero_zero : atan2 0 0 = 0 := by
  have h : ((⟨0, 0⟩ : ℂ)) = 0 := by
    apply Complex.ext <;> simp
  rw [atan2, h, Complex.arg_zero]

/-- C5 counterexample: `resetOverlay` (and the new-image reset) store
`y = 60`, not the claimed default `y = 50`. -/
theorem c5_counterexample :
    resetOverlay.y = 60 ∧ resetOverlay.y ≠ 50 ∧ uploadReset.y = 60 := by
  refine ⟨rfl, ?_, rfl⟩
  rw [resetOverlay]
  norm_num

/-- C5 (amended): whenever a new base image is loaded, and on every
`reset`, the transform model is replaced with `x = 50`, `y = 60` in the
first source variant (`y = 50` in the second variant), `scale = 1`,
`rotation = 0`, `opacity = 0.95` (within `[0.9, 0.95]`); reset is total,
with no error conditions. -/
theorem c5_reset_defaults :
    uploadReset = resetOverlay ∧
    resetOverlay.x = 50 ∧ resetOverlay.y = 60 ∧ resetOverlay.scale = 1 ∧
    resetOverlay.rotation = 0 ∧ resetOverlay.opacity = 0.95 ∧
    0.9 ≤ resetOverlay.opacity ∧ resetOverlay.opacity ≤ 0.95 ∧
    uploadReset2 = resetOverlay2 ∧
    resetOverlay2.x = 50 ∧ resetOverlay2.y = 50 ∧ resetOverlay2.scale = 1 ∧
    resetOverlay2.rotation = 0 ∧ resetOverlay2.opacity = 0.95 := by
  refine ⟨rfl, rfl, rfl, rfl, rfl, rfl, ?_, ?_, rfl, rfl, rfl, rfl, rfl, rfl⟩ <;>
    norm_num [resetOverlay]

/-- C7 counterexample: a pointer-down for resize arriving while a drag is
active leaves both `isDragging` and `isResizing` true — the mode flags are
not mutually exclusive by construction. -/
theorem c7_counterexample :
    (gestureStep (.pointerDown .resize true)
        (gestureStep (.pointerDown .drag true) initFlags)).isDragging = true ∧
    (gestureStep (.pointerDown .resize true)
        (gestureStep (.pointerDown .drag true) initFlags)).isResizing = true ∧
    ¬ AtMostOneMode (gestureStep (.pointerDown .resize true)
        (gestureStep (.pointerDown .drag true) initFlags)) := by
  refine ⟨rfl, rfl, ?_⟩
  rw [AtMostOneMode]
  decide

/-- C7 (amended): the controller starts Idle (all flags false), the end
signal (`mouseup`/`touchend`) always returns it to Idle, and any step from
a state with at most one active mode keeps at most one mode active
provided pointer-downs are only delivered in the Idle state; a
pointer-down during an active gesture, however, can set a second flag. -/
theorem c7_gesture_modes :
    AtMostOneMode initFlags ∧
    (∀ f : GestureFlags, gestureStep .endSignal f = initFlags) ∧
    (∀ (f : GestureFlags) (e : GEvent), AtMostOneMode f →
      (∀ a p, e = .pointerDown a p → f = initFlags) →
      AtMostOneMode (gestureStep e f)) := by
  refine ⟨by rw [AtMostOneMode]; decide, fun f => rfl, ?_⟩
  intro f e hf hdown
  cases e with
  | pointerDown a p =>
    have hfi : f = initFlags := hdown a p rfl
    subst hfi
    cases a <;> cases p <;> (rw [AtMostOneMode]; decide)
  | pointerMove => exact hf
  | endSignal => rw [AtMostOneMode]; simp [gestureStep]

/-- Witness for C7's amended theorem: one drag-down from Idle keeps at
most one mode active. -/
theorem c7_gesture_modes_witness :
    AtMostOneMode (gestureStep (.pointerDown .drag true) initFlags) :=
  c7_gesture_modes.2.2 initFlags (.pointerDown .drag true)
    (by rw [AtMostOneMode]; decide) (fun a p h => rfl)

/-- C8 counterexample: with the hidden canvas mounted
(`canvasRef.current` non-null), two export requests both resolve to that
same canvas — they share one mutable raster rather than each writing its
own. -/
theorem c8_counterexample :
    exportCanvas (some 0) 1 = exportCanvas (some 0) 2 ∧
    exportCanvas (some 0) 1 = 0 := ⟨rfl, rfl⟩

/-- C8 (amended): every export writes into the single canvas referenced by
`canvasRef` whenever that ref is set — which is the app's steady state —
so concurrent exports share one mutable destination raster; only when the
ref is null does each export create its own fresh canvas, and distinct
fresh canvases are distinct. -/
theorem c8_export_canvas (c f f1 f2 : Nat) (hne : f1 ≠ f2) :
    exportCanvas (some c) f = c ∧ exportCanvas none f = f ∧
    exportCanvas none f1 ≠ exportCanvas none f2 := ⟨rfl, rfl, hne⟩

/-- Witness for C8's amended theorem at concrete canvas tokens. -/
theorem c8_export_canvas_witness :
    exportCanvas (some 3) 7 = 3 ∧ exportCanvas none 7 = 7 ∧
    exportCanvas none 1 ≠ exportCanvas none 2 :=
  c8_export_canvas 3 7 1 2 (by decide)

/-- C6 counterexample: the drag setter stores `clamp(NaN) = NaN` —
`Math.max(0, Math.min(100, NaN))` is NaN — so a NaN input is neither
rejected in favor of the prior value nor clamped to a bound. -/
theorem c6_counterexample :
    dragStoreX .nan = .nan ∧
    JSNum.nan ≠ JSNum.num 50 ∧ JSNum.nan ≠ JSNum.num 0 ∧
    JSNum.nan ≠ JSNum.num 100 := by
  refine ⟨rfl, ?_, ?_, ?_⟩ <;> decide

/-- C6 (amended): the setters are total and never raise; an input of
`+Infinity` is clamped to the upper bound and `-Infinity` to the lower
bound, and every finite input lands inside `[a, b]`; a NaN input, however,
is not rejected: `clamp` propagates it and NaN is stored. -/
theorem c6_clamp_special_values (a b q : ℚ) (hab : a ≤ b) :
    clampJS .posInf a b = .num b ∧
    clampJS .negInf a b = .num a ∧
    (∃ r : ℚ, clampJS (.num q) a b = .num r ∧ a ≤ r ∧ r ≤ b) ∧
    clampJS .nan a b = .nan := by
  refine ⟨?_, rfl, ⟨max a (min b q), rfl, le_max_left _ _,
    max_le hab (min_le_left _ _)⟩, rfl⟩
  show JSNum.num (max a b) = JSNum.num b
  rw [max_eq_right hab]

/-- Witness for C6's amended theorem at the drag bounds `[0, 100]`. -/
theorem c6_clamp_special_values_witness :
    clampJS .posInf 0 100 = .num 100 ∧
    clampJS .negInf 0 100 = .num 0 ∧
    (∃ r : ℚ, clampJS (.num 7) 0 100 = .num r ∧ 0 ≤ r ∧ r ≤ 100) ∧
    clampJS .nan 0 100 = .nan :=
  c6_clamp_special_values 0 100 7 (by norm_num)

/-- C4 counterexample: with the container mounted but its rectangle still
zero-sized, a drag move is not a no-op — it overwrites `x` and `y`.  At
this input (pointer above-left of the origin) JavaScript computes
`-5 / 0 = -Infinity`, and `clamp` maps that to `0`; the real-number model
(where `-5 / 0 = 0`, then `clamp 0 0 100 = 0`) stores the same value, so
the two semantics agree on the stored state. -/
theorem c4_counterexample :
    (handleMove (some ⟨0, 0, 0, 0⟩) ⟨true, false, false⟩ (-5) (-5) initialOverlay).x = 0 ∧
    initialOverlay.x = 50 ∧
    handleMove (some ⟨0, 0, 0, 0⟩) ⟨true, false, false⟩ (-5) (-5) initialOverlay ≠
      initialOverlay := by
  have hx : (handleMove (some ⟨0, 0, 0, 0⟩) ⟨true, false, false⟩ (-5) (-5)
      initialOverlay).x = 0 := by
    norm_num [handleMove, clamp, initialOverlay]
  refine ⟨hx, rfl, fun heq => ?_⟩
  rw [heq] at hx
  norm_num [initialOverlay] at hx

/-- C4 (amended): gesture-move updates are no-ops, and never crash, when
the container reference (variant 1) or the cached image rectangle
(variant 2) is absent; a merely zero-sized rectangle, however, does not
suppress updates — a drag move still stores clamped coordinates. -/
theorem c4_null_container_noop (flags : GestureFlags) (clientX clientY : ℝ)
    (s : OverlayState) :
    handleMove none flags clientX clientY s = s ∧
    ∀ dragStartPresent : Bool,
      handleMove2 none flags dragStartPresent clientX clientY s = s :=
  ⟨rfl, fun _ => rfl⟩

/-- C1: for an export whose decoded base image has native size `(W, H)`
and whose decoded overlay has size `(w, h)` with `h > 0`, the destination
raster is exactly `W × H` (the preview surface size does not enter), the
base image is painted at the origin filling the raster, and then — in this
order — the context is translated to `(x/100*W, y/100*H)`, rotated by
`rotation` degrees converted to radians, and the overlay is drawn centered
at the origin at size `drawW = min(W,H)*0.32*scale` by
`drawH = drawW/(w/h)` under `globalAlpha = opacity`, after which the saved
paint state is restored. -/
theorem c1_export_geometry (W H w h : ℝ) (t : OverlayState) (hh : 0 < h) :
    downloadImage (some (.ok ⟨W, H⟩)) true (.ok ⟨w, h⟩) t =
      .downloaded W H
        [ .clearRect 0 0 W H,
          .drawImage .base 0 0 W H,
          .save,
          .setAlpha t.opacity,
          .translate (t.x / 100 * W) (t.y / 100 * H),
          .rotate (t.rotation * (Real.pi / 180)),
          .drawImage .overlay (-(min W H * 0.32 * t.scale) / 2)
            (-(min W H * 0.32 * t.scale / (w / h)) / 2)
            (min W H * 0.32 * t.scale)
            (min W H * 0.32 * t.scale / (w / h)),
          .restore ] := by
  simp [downloadImage, exportOps, mul_div_assoc]

/-- Witness for C1 with a 200×100 base, a 4×2 overlay and the default
transform. -/
theorem c1_export_geometry_witness :
    (0 : ℝ) < 2 ∧
    downloadImage (some (.ok ⟨200, 100⟩)) true (.ok ⟨4, 2⟩) initialOverlay =
      .downloaded 200 100
        [ .clearRect 0 0 200 100,
          .drawImage .base 0 0 200 100,
          .save,
          .setAlpha initialOverlay.opacity,
          .translate (initialOverlay.x / 100 * 200) (initialOverlay.y / 100 * 100),
          .rotate (initialOverlay.rotation * (Real.pi / 180)),
          .drawImage .overlay (-(min 200 100 * 0.32 * initialOverlay.scale) / 2)
            (-(min 200 100 * 0.32 * initialOverlay.scale / (4 / 2)) / 2)
            (min 200 100 * 0.32 * initialOverlay.scale)
            (min 200 100 * 0.32 * initialOverlay.scale / (4 / 2)),
          .restore ] :=
  ⟨by norm_num, c1_export_geometry 200 100 4 2 initialOverlay (by norm_num)⟩

/-- C9: if decoding the base or the overlay image fails, `downloadImage`
ends in the export-failed alert — an observable failure signal — and no
download is produced; and whenever a download is produced, its paint
operations include a draw of the overlay image, so the overlay is never
silently omitted. -/
theorem c9_decode_failure (baseLoad overlayLoad : Except Unit Img)
    (t : OverlayState) :
    (∀ e : Unit, baseLoad = .error e →
      downloadImage (some baseLoad) true overlayLoad t = .exportFailedAlert) ∧
    (∀ e : Unit, overlayLoad = .error e →
      downloadImage (some baseLoad) true overlayLoad t = .exportFailedAlert) ∧
    (∀ (W H : ℝ) (ops : List PaintOp),
      downloadImage (some baseLoad) true overlayLoad t = .downloaded W H ops →
      ∃ ox oy ow oh, PaintOp.drawImage .overlay ox oy ow oh ∈ ops) := by
  refine ⟨?_, ?_, ?_⟩
  · rintro e rfl
    rfl
  · rintro e rfl
    cases baseLoad with
    | error e2 => rfl
    | ok b => rfl
  · intro W H ops heq
    cases baseLoad with
    | error e => simp [downloadImage] at heq
    | ok b =>
      cases overlayLoad with
      | error e => simp [downloadImage] at heq
      | ok ov =>
        simp only [downloadImage, if_true] at heq
        rw [ExportOutcome.downloaded.injEq] at heq
        rw [← heq.2.2]
        refine ⟨-(min b.width b.height * 0.32 * t.scale) / 2,
          -(min b.width b.height * 0.32 * t.scale / (ov.width / ov.height)) / 2,
          min b.width b.height * 0.32 * t.scale,
          min b.width b.height * 0.32 * t.scale / (ov.width / ov.height), ?_⟩
        simp [exportOps]

/-- Witness for C9: a failed base decode ends in the alert. -/
theorem c9_decode_failure_witness :
    downloadImage (some (.error ())) true (.ok ⟨2, 2⟩) initialOverlay =
      .exportFailedAlert :=
  (c9_decode_failure (.error ()) (.ok ⟨2, 2⟩) initialOverlay).1 () rfl

/-- C2: a resize move over a surface of positive size stores exactly
`clamp(distance / baseDistance, minScale, maxScale)`, where `distance` is
the Euclidean distance from the surface-local pointer to the overlay
center `(x/100*width, y/100*height)` and
`baseDistance = min(width, height) * 0.2`; in particular
`distance = baseDistance` gives scale `1` and `distance = 0` gives the
minimum scale (`0.25` in variant 1, `0.2` in variant 2), with no
division-by-zero degeneracy since `baseDistance > 0`. -/
theorem c2_resize_scale (rect : Rect) (clientX clientY : ℝ) (s : OverlayState)
    (hw : 0 < rect.width) (hh : 0 < rect.height) :
    ((handleMove (some rect) ⟨false, true, false⟩ clientX clientY s).scale =
        clamp (Real.sqrt
            ((clientX - rect.left - s.x / 100 * rect.width) *
              (clientX - rect.left - s.x / 100 * rect.width) +
             (clientY - rect.top - s.y / 100 * rect.height) *
              (clientY - rect.top - s.y / 100 * rect.height)) /
          (min rect.width rect.height * 0.2)) 0.25 4 ∧
      (Real.sqrt
            ((clientX - rect.left - s.x / 100 * rect.width) *
              (clientX - rect.left - s.x / 100 * rect.width) +
             (clientY - rect.top - s.y / 100 * rect.height) *
              (clientY - rect.top - s.y / 100 * rect.height)) =
          min rect.width rect.height * 0.2 →
        (handleMove (some rect) ⟨false, true, false⟩ clientX clientY s).scale = 1) ∧
      (Real.sqrt
            ((clientX - rect.left - s.x / 100 * rect.width) *
              (clientX - rect.left - s.x / 100 * rect.width) +
             (clientY - rect.top - s.y / 100 * rect.height) *
              (clientY - rect.top - s.y / 100 * rect.height)) = 0 →
        (handleMove (some rect) ⟨false, true, false⟩ clientX clientY s).scale = 0.25)) ∧
    ((handleMove2 (some rect) ⟨false, true, false⟩ true clientX clientY s).scale =
        clamp (Real.sqrt
            ((clientX - rect.left - s.x / 100 * rect.width) *
              (clientX - rect.left - s.x / 100 * rect.width) +
             (clientY - rect.top - s.y / 100 * rect.height) *
              (clientY - rect.top - s.y / 100 * rect.height)) /
          (min rect.width rect.height * 0.2)) 0.2 4 ∧
      (Real.sqrt
            ((clientX - rect.left - s.x / 100 * rect.width) *
              (clientX - rect.left - s.x / 100 * rect.width) +
             (clientY - rect.top - s.y / 100 * rect.height) *
              (clientY - rect.top - s.y / 100 * rect.height)) =
          min rect.width rect.height * 0.2 →
        (handleMove2 (some rect) ⟨false, true, false⟩ true clientX clientY s).scale = 1) ∧
      (Real.sqrt
            ((clientX - rect.left - s.x / 100 * rect.width) *
              (clientX - rect.left - s.x / 100 * rect.width) +
             (clientY - rect.top - s.y / 100 * rect.height) *
              (clientY - rect.top - s.y / 100 * rect.height)) = 0 →
        (handleMove2 (some rect) ⟨false, true, false⟩ true clientX clientY s).scale = 0.2)) := by
  have hbase : (0 : ℝ) < min rect.width rect.height * 0.2 := by
    have hm : (0 : ℝ) < min rect.width rect.height := lt_min hw hh
    nlinarith
  have h1 : (handleMove (some rect) ⟨false, true, false⟩ clientX clientY s).scale =
      clamp (Real.sqrt
          ((clientX - rect.left - s.x / 100 * rect.width) *
            (clientX - rect.left - s.x / 100 * rect.width) +
           (clientY - rect.top - s.y / 100 * rect.height) *
            (clientY - rect.top - s.y / 100 * rect.height)) /
        (min rect.width rect.height * 0.2)) 0.25 4 := rfl
  have h2 : (handleMove2 (some rect) ⟨false, true, false⟩ true clientX clientY s).scale =
      clamp (Real.sqrt
          ((clientX - rect.left - s.x / 100 * rect.width) *
            (clientX - rect.left - s.x / 100 * rect.width) +
           (clientY - rect.top - s.y / 100 * rect.height) *
            (clientY - rect.top - s.y / 100 * rect.height)) /
        (min rect.width rect.height * 0.2)) 0.2 4 := rfl
  refine ⟨⟨h1, ?_, ?_⟩, h2, ?_, ?_⟩
  · intro hd
    rw [h1, hd, div_self (ne_of_gt hbase)]
    norm_num [clamp, min_def, max_def]
  · intro hd
    rw [h1, hd, zero_div]
    norm_num [clamp, min_def, max_def]
  · intro hd
    rw [h2, hd, div_self (ne_of_gt hbase)]
    norm_num [clamp, min_def, max_def]
  · intro hd
    rw [h2, hd, zero_div]
    norm_num [clamp, min_def, max_def]

/-- Witness for C2: on a 100×100 surface with the default overlay, a
pointer exactly at the overlay center has distance 0 and stores the
minimum scale in each variant. -/
theorem c2_resize_scale_witness :
    (handleMove (some ⟨0, 0, 100, 100⟩) ⟨false, true, false⟩ 50 60
      initialOverlay).scale = 0.25 ∧
    (handleMove2 (some ⟨0, 0, 100, 100⟩) ⟨false, true, false⟩ true 50 60
      initialOverlay).scale = 0.2 := by
  have h := c2_resize_scale ⟨0, 0, 100, 100⟩ 50 60 initialOverlay
    (by norm_num) (by norm_num)
  have hd : Real.sqrt
      ((50 - (⟨0, 0, 100, 100⟩ : Rect).left -
          initialOverlay.x / 100 * (⟨0, 0, 100, 100⟩ : Rect).width) *
        (50 - (⟨0, 0, 100, 100⟩ : Rect).left -
          initialOverlay.x / 100 * (⟨0, 0, 100, 100⟩ : Rect).width) +
       (60 - (⟨0, 0, 100, 100⟩ : Rect).top -
          initialOverlay.y / 100 * (⟨0, 0, 100, 100⟩ : Rect).height) *
        (60 - (⟨0, 0, 100, 100⟩ : Rect).top -
          initialOverlay.y / 100 * (⟨0, 0, 100, 100⟩ : Rect).height)) = 0 := by
    norm_num [initialOverlay]
  exact ⟨h.1.2.2 hd, h.2.2.2 hd⟩

/-- C10: after every rotate move, the stored rotation —
`atan2(dy, dx) * 180 / π` — lies in `[-180, 180]` regardless of the prior
state, and a pointer exactly at the overlay center stores rotation 0 (both
variants). -/
theorem c10_rotation_range (rect : Rect) (clientX clientY : ℝ) (s : OverlayState) :
    (-180 ≤ (handleMove (some rect) ⟨false, false, true⟩ clientX clientY s).rotation ∧
      (handleMove (some rect) ⟨false, false, true⟩ clientX clientY s).rotation ≤ 180 ∧
      -180 ≤ (handleMove2 (some rect) ⟨false, false, true⟩ true clientX clientY s).rotation ∧
      (handleMove2 (some rect) ⟨false, false, true⟩ true clientX clientY s).rotation ≤ 180) ∧
    (clientX - rect.left = s.x / 100 * rect.width →
      clientY - rect.top = s.y / 100 * rect.height →
      (handleMove (some rect) ⟨false, false, true⟩ clientX clientY s).rotation = 0 ∧
      (handleMove2 (some rect) ⟨false, false, true⟩ true clientX clientY s).rotation = 0) := by
  have h1 : (handleMove (some rect) ⟨false, false, true⟩ clientX clientY s).rotation =
      atan2 (clientY - rect.top - s.y / 100 * rect.height)
        (clientX - rect.left - s.x / 100 * rect.width) * 180 / Real.pi := rfl
  have h2 : (handleMove2 (some rect) ⟨false, false, true⟩ true clientX clientY s).rotation =
      atan2 (clientY - rect.top - s.y / 100 * rect.height)
        (clientX - rect.left - s.x / 100 * rect.width) * (180 / Real.pi) := rfl
  have hb := atan2_deg_mem (clientY - rect.top - s.y / 100 * rect.height)
    (clientX - rect.left - s.x / 100 * rect.width)
  refine ⟨⟨?_, ?_, ?_, ?_⟩, ?_⟩
  · rw [h1]; exact hb.1
  · rw [h1]; exact hb.2
  · rw [h2, ← mul_div_assoc]; exact hb.1
  · rw [h2, ← mul_div_assoc]; exact hb.2
  · intro hx hy
    have hx0 : clientX - rect.left - s.x / 100 * rect.width = 0 := by
      rw [hx, sub_self]
    have hy0 : clientY - rect.top - s.y / 100 * rect.height = 0 := by
      rw [hy, sub_self]
    constructor
    · rw [h1, hx0, hy0, atan2_zero_zero, zero_mul, zero_div]
    · rw [h2, hx0, hy0, atan2_zero_zero, zero_mul]

/-- Witness for C10: a pointer at the default overlay center of a 100×100
surface stores rotation 0, within bounds. -/
theorem c10_rotation_range_witness :
    (handleMove (some ⟨0, 0, 100, 100⟩) ⟨false, false, true⟩ 50 60
        initialOverlay).rotation = 0 ∧
    -180 ≤ (handleMove (some ⟨0, 0, 100, 100⟩) ⟨false, false, true⟩ 50 60
        initialOverlay).rotation := by
  have h := c10_rotation_range ⟨0, 0, 100, 100⟩ 50 60 initialOverlay
  refine ⟨(h.2 ?_ ?_).1, h.1.1⟩ <;> norm_num [initialOverlay]

/-- C3 counterexample: the range invariant is not preserved for every
input — a drag move over a zero-size rectangle with the pointer exactly at
the rectangle origin computes `localX / rect.width = 0 / 0 = NaN`,
`NaN * 100 = NaN`, and `clamp` propagates it, storing into `x` a NaN that
lies in no range, under the faithful IEEE semantics of lines 109-115. -/
theorem c3_counterexample :
    dragNewX (.num 0) (.num 0) (.num 0) = .nan ∧
    ¬ InRangeJS (dragNewX (.num 0) (.num 0) (.num 0)) 0 100 := by
  have h : dragNewX (.num 0) (.num 0) (.num 0) = .nan := by
    simp [dragNewX, jsSub, jsDiv, jsMul, clampJS, jsMin, jsMax]
  refine ⟨h, fun hin => ?_⟩
  simp only [InRangeJS] at hin
  obtain ⟨q, hq, -, -⟩ := hin
  rw [h] at hq
  exact JSNum.noConfusion hq

/-- C3 (amended): every transform-mutating operation — drag, resize and
rotate moves over a laid-out surface of positive width and height, the
opacity slider within its DOM-declared `[0.1, 1]` domain, reset, new-image
load, and the scale and rotation nudge buttons — preserves the range
invariant `x, y ∈ [0, 100]`, `scale ∈ [0.2, 4]`, `opacity ∈ [0.1, 1]`
(rotation unconstrained), for every pointer position; over a zero-size
surface this fails: the drag arithmetic degenerates to NaN, which is
stored. -/
theorem c3_invariant_preserved (a : UserAction) (s : OverlayState)
    (hs : Invariant s) (ha : ValidAction a) : Invariant (applyAction a s) := by
  simp only [Invariant] at hs ⊢
  obtain ⟨hx0, hx1, hy0, hy1, hs0, hs1, ho0, ho1⟩ := hs
  cases a with
  | dragMove rect cx cy =>
    exact ⟨(clamp_mem _ 0 100 (by norm_num)).1, (clamp_mem _ 0 100 (by norm_num)).2,
      (clamp_mem _ 0 100 (by norm_num)).1, (clamp_mem _ 0 100 (by norm_num)).2,
      hs0, hs1, ho0, ho1⟩
  | resizeMove rect cx cy =>
    exact ⟨hx0, hx1, hy0, hy1,
      le_trans (by norm_num) (clamp_mem _ 0.25 4 (by norm_num)).1,
      (clamp_mem _ 0.25 4 (by norm_num)).2, ho0, ho1⟩
  | rotateMove rect cx cy =>
    exact ⟨hx0, hx1, hy0, hy1, hs0, hs1, ho0, ho1⟩
  | opacityInput o =>
    simp only [ValidAction] at ha
    exact ⟨hx0, hx1, hy0, hy1, hs0, hs1, ha.1, ha.2⟩
  | resetClick => norm_num [applyAction, resetOverlay]
  | newImageLoad => norm_num [applyAction, uploadReset]
  | scaleNudge d =>
    exact ⟨hx0, hx1, hy0, hy1, (clamp_mem _ 0.2 4 (by norm_num)).1,
      (clamp_mem _ 0.2 4 (by norm_num)).2, ho0, ho1⟩
  | rotationNudge d =>
    exact ⟨hx0, hx1, hy0, hy1, hs0, hs1, ho0, ho1⟩

/-- Witness for C3: reset from the initial state preserves the invariant. -/
theorem c3_invariant_preserved_witness :
    Invariant (applyAction .resetClick initialOverlay) :=
  c3_invariant_preserved .resetClick initialOverlay
    (by norm_num [Invariant, initialOverlay]) trivial

end AztecOverlay
